import Mathlib

/-!
Shallow embedding of the authentication security layer of the `alx-polly`
repository (rate limiting, failed-attempt tracking, device fingerprinting,
suspicious-activity detection, RBAC, and the `login` orchestrator), together
with theorems settling the specification claims about it.

JavaScript `Map`s and the cookie store are modelled as functions from keys to
optional values; `Date.now()` timestamps are explicit `Int` parameters;
the Supabase identity provider is an explicit oracle parameter.
-/

/-! ## JavaScript primitives -/

/-- Model of the JS `x || d` idiom on possibly-absent strings: both `null` /
`undefined` and the empty string are falsy and fall through to the default. -/
def jsOr (o : Option String) (d : String) : String :=
  match o with
  | none => d
  | some v => if v = "" then d else v

/-- Value of a list of decimal digit characters, most significant first. -/
def digitsVal (l : List Char) : Nat :=
  l.foldl (fun a c => a * 10 + (c.toNat - 48)) 0

/-- Longest leading run of decimal digits, or `none` if there is none
(JS `parseInt` yields `NaN` in that case). -/
def digitsPrefixVal (l : List Char) : Option Nat :=
  match l.takeWhile Char.isDigit with
  | [] => none
  | ds => some (digitsVal ds)

/-- Model of JS `parseInt(s)` / `parseInt(s, 10)` on radix-10 input:
leading spaces are skipped, an optional sign is consumed, and the longest
leading digit run is read; `none` models `NaN`. -/
def parseIntJS (s : String) : Option Int :=
  match s.data.dropWhile (fun c => c = ' ') with
  | '-' :: t => (digitsPrefixVal t).map (fun n => -(n : Int))
  | '+' :: t => (digitsPrefixVal t).map (fun n => (n : Int))
  | t => (digitsPrefixVal t).map (fun n => (n : Int))

/-- JS `x >= n` where `x` may be `NaN` (modelled `none`): `NaN` compares false. -/
def jsGe (x : Option Int) (n : Int) : Bool :=
  match x with
  | none => false
  | some v => n ≤ v

/-- JS `x > n` where `x` may be `NaN`: `NaN` compares false. -/
def jsGt (x : Option Int) (n : Int) : Bool :=
  match x with
  | none => false
  | some v => n < v

/-- JS `String(x)` for a number `x` that may be `NaN`. -/
def jsNumToString (x : Option Int) : String :=
  match x with
  | none => "NaN"
  | some v => toString v

/-- `Math.ceil(a / b)` on integers, for positive `b`. -/
def jsCeilDiv (a b : Int) : Int := -((-a).ediv b)

/-- Bool-valued test that `pat` is a prefix of `l` (character lists). -/
def listPrefixOf : List Char → List Char → Bool
  | [], _ => true
  | _ :: _, [] => false
  | a :: as, b :: bs => a == b && listPrefixOf as bs

/-- Bool-valued test that `pat` occurs as a contiguous run inside `l`. -/
def listIncl (pat : List Char) : List Char → Bool
  | [] => pat.isEmpty
  | h :: t => listPrefixOf pat (h :: t) || listIncl pat t

/-- Model of JS `s.includes(pat)`. -/
def strIncludes (s pat : String) : Bool :=
  listIncl pat.data s.data

/-! ## UTF-8 and base64 (`Buffer.from(s).toString('base64')`)

Bytes are modelled as `Nat` values below 256. -/

/-- UTF-8 encoding of a single Unicode scalar value. -/
def encodeUtf8Char (c : Char) : List Nat :=
  let n := c.toNat
  if n < 128 then [n]
  else if n < 2048 then [192 + n / 64, 128 + n % 64]
  else if n < 65536 then [224 + n / 4096, 128 + (n / 64) % 64, 128 + n % 64]
  else [240 + n / 262144, 128 + (n / 4096) % 64, 128 + (n / 64) % 64, 128 + n % 64]

/-- UTF-8 bytes of a string (the bytes `Buffer.from(s)` holds). -/
def utf8Bytes (s : String) : List Nat :=
  (s.data.map encodeUtf8Char).flatten

/-- The base64 alphabet, in index order. -/
def b64Alphabet : List Char :=
  "ABCDEFGHIJKLMNOPQRSTUVWXYZabcdefghijklmnopqrstuvwxyz0123456789+/".data

/-- Character for a 6-bit group. -/
def b64Char (n : Nat) : Char := b64Alphabet.getD n 'A'

/-- Standard base64 of a byte list, with `=` padding. -/
def base64Chunks : List Nat → List Char
  | [] => []
  | [a] => [b64Char (a / 4), b64Char (a % 4 * 16), '=', '=']
  | [a, b] => [b64Char (a / 4), b64Char (a % 4 * 16 + b / 16), b64Char (b % 16 * 4), '=']
  | a :: b :: c :: rest =>
      b64Char (a / 4) :: b64Char (a % 4 * 16 + b / 16) ::
      b64Char (b % 16 * 4 + c / 64) :: b64Char (c % 64) :: base64Chunks rest

/-- Model of `Buffer.from(s).toString('base64')`. -/
def bufferBase64 (s : String) : String :=
  String.mk (base64Chunks (utf8Bytes s))

/-- Index of a character in the base64 alphabet (decoder side). -/
def b64Val (c : Char) : Nat := b64Alphabet.indexOf c

/-- Base64 decoder, inverse of `base64Chunks` on its image. -/
def deBase64 : List Char → List Nat
  | a :: b :: c :: d :: rest =>
      if c = '=' then [b64Val a * 4 + b64Val b / 16]
      else if d = '=' then
        [b64Val a * 4 + b64Val b / 16, b64Val b % 16 * 16 + b64Val c / 4]
      else
        (b64Val a * 4 + b64Val b / 16) :: (b64Val b % 16 * 16 + b64Val c / 4) ::
        (b64Val c % 4 * 64 + b64Val d) :: deBase64 rest
  | _ => []

/-- UTF-8 decoder, inverse of `utf8Bytes` on its image (missing continuation
bytes of malformed input are read as zero). -/
def decodeUtf8 : List Nat → List Char
  | [] => []
  | b :: rest =>
    if b < 128 then Char.ofNat b :: decodeUtf8 rest
    else if b < 224 then
      Char.ofNat ((b - 192) * 64 + (rest.headD 0 - 128)) :: decodeUtf8 (rest.drop 1)
    else if b < 240 then
      Char.ofNat ((b - 224) * 4096 + (rest.headD 0 - 128) * 64 + ((rest.drop 1).headD 0 - 128))
        :: decodeUtf8 (rest.drop 2)
    else
      Char.ofNat ((b - 240) * 262144 + (rest.headD 0 - 128) * 4096 +
          ((rest.drop 1).headD 0 - 128) * 64 + ((rest.drop 2).headD 0 - 128))
        :: decodeUtf8 (rest.drop 3)
termination_by l => l.length
decreasing_by
  all_goals simp [List.length_drop]
  all_goals omega

/-- Sanity check of the base64 embedding against a known encoding. -/
theorem bufferBase64_sample : bufferBase64 "a@b.c" = "YUBiLmM=" := by decide

/-! ### Decoders witnessing reversibility of the fingerprint encoding -/

/-- Appending strings concatenates their character data. -/
theorem string_data_append (a b : String) : (a ++ b).data = a.data ++ b.data := by
  cases a; cases b; rfl

/-- Every character `b64Char` produces lies in the base64 alphabet (the
out-of-range default `'A'` is itself in the alphabet). -/
theorem b64Char_mem_alphabet (n : Nat) : b64Char n ∈ b64Alphabet := by
  unfold b64Char
  rw [List.getD_eq_getElem?_getD]
  cases h : b64Alphabet[n]? with
  | none => rw [Option.getD]; decide
  | some c => rw [Option.getD]; exact List.getElem?_mem h

/-- Every character of a base64 encoding is an alphabet character or `'='`. -/
theorem base64Chunks_chars (bs : List Nat) :
    ∀ c ∈ base64Chunks bs, c ∈ b64Alphabet ∨ c = '=' := by
  induction bs using base64Chunks.induct with
  | case1 => intro c hc; cases hc
  | case2 a =>
      intro c hc
      simp only [base64Chunks, List.mem_cons] at hc
      rcases hc with h | h | h | h | h
      · exact Or.inl (h ▸ b64Char_mem_alphabet _)
      · exact Or.inl (h ▸ b64Char_mem_alphabet _)
      · exact Or.inr h
      · exact Or.inr h
      · cases h
  | case3 a b =>
      intro c hc
      simp only [base64Chunks, List.mem_cons] at hc
      rcases hc with h | h | h | h | h
      · exact Or.inl (h ▸ b64Char_mem_alphabet _)
      · exact Or.inl (h ▸ b64Char_mem_alphabet _)
      · exact Or.inl (h ▸ b64Char_mem_alphabet _)
      · exact Or.inr h
      · cases h
  | case4 a b c rest ih =>
      intro x hx
      simp only [base64Chunks, List.mem_cons] at hx
      rcases hx with h | h | h | h | h
      · exact Or.inl (h ▸ b64Char_mem_alphabet _)
      · exact Or.inl (h ▸ b64Char_mem_alphabet _)
      · exact Or.inl (h ▸ b64Char_mem_alphabet _)
      · exact Or.inl (h ▸ b64Char_mem_alphabet _)
      · exact ih x h

/-- No character of a base64 encoding is an underscore. -/
theorem base64Chunks_no_underscore (bs : List Nat) :
    ∀ c ∈ base64Chunks bs, c ≠ '_' := by
  intro c hc
  rcases base64Chunks_chars bs c hc with h | h
  · intro he; rw [he] at h; revert h; decide
  · rw [h]; decide

/-- Unicode scalar values are below `0x110000`. -/
theorem char_toNat_lt (c : Char) : c.toNat < 1114112 := by
  rcases c.valid with h | ⟨_, h2⟩
  · have h3 : c.toNat < (55296 : UInt32).toNat := h
    have h4 : (55296 : UInt32).toNat = 55296 := rfl
    omega
  · have h3 : c.toNat < (1114112 : UInt32).toNat := h2
    have h4 : (1114112 : UInt32).toNat = 1114112 := rfl
    omega

/-- Every UTF-8 byte is below 256. -/
theorem encodeUtf8Char_lt (c : Char) : ∀ b ∈ encodeUtf8Char c, b < 256 := by
  intro b hb
  have hc := char_toNat_lt c
  unfold encodeUtf8Char at hb
  by_cases h1 : c.toNat < 128
  · rw [if_pos h1] at hb
    simp only [List.mem_cons, List.not_mem_nil, or_false] at hb
    omega
  · rw [if_neg h1] at hb
    by_cases h2 : c.toNat < 2048
    · rw [if_pos h2] at hb
      simp only [List.mem_cons, List.not_mem_nil, or_false] at hb
      rcases hb with h | h <;> omega
    · rw [if_neg h2] at hb
      by_cases h3 : c.toNat < 65536
      · rw [if_pos h3] at hb
        simp only [List.mem_cons, List.not_mem_nil, or_false] at hb
        rcases hb with h | h | h <;> omega
      · rw [if_neg h3] at hb
        simp only [List.mem_cons, List.not_mem_nil, or_false] at hb
        rcases hb with h | h | h | h <;> omega

/-- Every byte of a UTF-8 encoded string is below 256. -/
theorem utf8Bytes_lt (s : String) : ∀ b ∈ utf8Bytes s, b < 256 := by
  intro b hb
  unfold utf8Bytes at hb
  rw [List.mem_flatten] at hb
  obtain ⟨l, hl, hbl⟩ := hb
  rw [List.mem_map] at hl
  obtain ⟨c, _, hc⟩ := hl
  exact encodeUtf8Char_lt c b (hc ▸ hbl)

/-- The base64 decoder table inverts the encoder table below 64. -/
theorem b64Val_b64Char : ∀ n < 64, b64Val (b64Char n) = n := by decide

/-- Encoder output characters are never the padding character. -/
theorem b64Char_ne_pad (n : Nat) : b64Char n ≠ '=' := by
  intro h
  have hm := b64Char_mem_alphabet n
  rw [h] at hm
  revert hm
  decide

/-- `deBase64` on a doubly padded quadruple. -/
theorem deBase64_pad2 (x y : Char) :
    deBase64 [x, y, '=', '='] = [b64Val x * 4 + b64Val y / 16] := by
  simp [deBase64]

/-- `deBase64` on a singly padded quadruple. -/
theorem deBase64_pad1 (x y z : Char) (hz : z ≠ '=') :
    deBase64 [x, y, z, '='] =
      [b64Val x * 4 + b64Val y / 16, b64Val y % 16 * 16 + b64Val z / 4] := by
  simp [deBase64, hz]

/-- `deBase64` on an unpadded leading quadruple. -/
theorem deBase64_full (x y z w : Char) (rest : List Char) (hz : z ≠ '=') (hw : w ≠ '=') :
    deBase64 (x :: y :: z :: w :: rest) =
      (b64Val x * 4 + b64Val y / 16) :: (b64Val y % 16 * 16 + b64Val z / 4) ::
      (b64Val z % 4 * 64 + b64Val w) :: deBase64 rest := by
  simp [deBase64, hz, hw]

/-- `deBase64` inverts `base64Chunks` on byte lists. -/
theorem deBase64_base64Chunks (bs : List Nat) (hbs : ∀ b ∈ bs, b < 256) :
    deBase64 (base64Chunks bs) = bs := by
  induction bs using base64Chunks.induct with
  | case1 => rfl
  | case2 a =>
      have ha : a < 256 := hbs a (List.mem_singleton.mpr rfl)
      simp only [base64Chunks]
      rw [deBase64_pad2]
      rw [b64Val_b64Char (a / 4) (by omega), b64Val_b64Char (a % 4 * 16) (by omega)]
      have e1 : a / 4 * 4 + a % 4 * 16 / 16 = a := by omega
      rw [e1]
  | case3 a b =>
      have ha : a < 256 := hbs a (by simp)
      have hb : b < 256 := hbs b (by simp)
      simp only [base64Chunks]
      rw [deBase64_pad1 _ _ _ (b64Char_ne_pad _)]
      rw [b64Val_b64Char (a / 4) (by omega),
        b64Val_b64Char (a % 4 * 16 + b / 16) (by omega),
        b64Val_b64Char (b % 16 * 4) (by omega)]
      have e1 : a / 4 * 4 + (a % 4 * 16 + b / 16) / 16 = a := by omega
      have e2 : (a % 4 * 16 + b / 16) % 16 * 16 + b % 16 * 4 / 4 = b := by omega
      rw [e1, e2]
  | case4 a b c rest ih =>
      have ha : a < 256 := hbs a (by simp)
      have hb : b < 256 := hbs b (by simp)
      have hc : c < 256 := hbs c (by simp)
      have hrest : ∀ x ∈ rest, x < 256 := by
        intro x hx
        exact hbs x (by simp [hx])
      simp only [base64Chunks]
      rw [deBase64_full _ _ _ _ _ (b64Char_ne_pad _) (b64Char_ne_pad _)]
      rw [b64Val_b64Char (a / 4) (by omega),
        b64Val_b64Char (a % 4 * 16 + b / 16) (by omega),
        b64Val_b64Char (b % 16 * 4 + c / 64) (by omega),
        b64Val_b64Char (c % 64) (by omega)]
      have e1 : a / 4 * 4 + (a % 4 * 16 + b / 16) / 16 = a := by omega
      have e2 : (a % 4 * 16 + b / 16) % 16 * 16 + (b % 16 * 4 + c / 64) / 4 = b := by omega
      have e3 : (b % 16 * 4 + c / 64) % 4 * 64 + c % 64 = c := by omega
      rw [e1, e2, e3, ih hrest]

/-- Nil case of the UTF-8 decoder. -/
theorem decodeUtf8_nil : decodeUtf8 [] = [] := by
  rw [decodeUtf8.eq_def]

/-- One-byte step of the UTF-8 decoder. -/
theorem decodeUtf8_b1 (b : Nat) (t : List Nat) (h : b < 128) :
    decodeUtf8 (b :: t) = Char.ofNat b :: decodeUtf8 t := by
  conv_lhs => rw [decodeUtf8.eq_def]
  dsimp only
  rw [if_pos h]

/-- Two-byte step of the UTF-8 decoder. -/
theorem decodeUtf8_b2 (b b2 : Nat) (t : List Nat) (h1 : ¬b < 128) (h2 : b < 224) :
    decodeUtf8 (b :: b2 :: t) =
      Char.ofNat ((b - 192) * 64 + (b2 - 128)) :: decodeUtf8 t := by
  conv_lhs => rw [decodeUtf8.eq_def]
  dsimp only
  rw [if_neg h1, if_pos h2]
  rfl

/-- Three-byte step of the UTF-8 decoder. -/
theorem decodeUtf8_b3 (b b2 b3 : Nat) (t : List Nat)
    (h1 : ¬b < 128) (h2 : ¬b < 224) (h3 : b < 240) :
    decodeUtf8 (b :: b2 :: b3 :: t) =
      Char.ofNat ((b - 224) * 4096 + (b2 - 128) * 64 + (b3 - 128)) :: decodeUtf8 t := by
  conv_lhs => rw [decodeUtf8.eq_def]
  dsimp only
  rw [if_neg h1, if_neg h2, if_pos h3]
  rfl

/-- Four-byte step of the UTF-8 decoder. -/
theorem decodeUtf8_b4 (b b2 b3 b4 : Nat) (t : List Nat)
    (h1 : ¬b < 128) (h2 : ¬b < 224) (h3 : ¬b < 240) :
    decodeUtf8 (b :: b2 :: b3 :: b4 :: t) =
      Char.ofNat ((b - 240) * 262144 + (b2 - 128) * 4096 + (b3 - 128) * 64 + (b4 - 128))
        :: decodeUtf8 t := by
  conv_lhs => rw [decodeUtf8.eq_def]
  dsimp only
  rw [if_neg h1, if_neg h2, if_neg h3]
  rfl

/-- `decodeUtf8` undoes one character's encoding at the head of a byte list. -/
theorem decodeUtf8_encodeUtf8Char (c : Char) (t : List Nat) :
    decodeUtf8 (encodeUtf8Char c ++ t) = c :: decodeUtf8 t := by
  unfold encodeUtf8Char
  by_cases h1 : c.toNat < 128
  · rw [if_pos h1]
    simp only [List.cons_append, List.nil_append]
    rw [decodeUtf8_b1 _ _ h1, Char.ofNat_toNat]
  · rw [if_neg h1]
    by_cases h2 : c.toNat < 2048
    · rw [if_pos h2]
      simp only [List.cons_append, List.nil_append]
      rw [decodeUtf8_b2 _ _ _ (by omega) (by omega)]
      have e : (192 + c.toNat / 64 - 192) * 64 + (128 + c.toNat % 64 - 128) = c.toNat := by
        omega
      rw [e, Char.ofNat_toNat]
    · rw [if_neg h2]
      by_cases h3 : c.toNat < 65536
      · rw [if_pos h3]
        simp only [List.cons_append, List.nil_append]
        rw [decodeUtf8_b3 _ _ _ _ (by omega) (by omega) (by omega)]
        have e : (224 + c.toNat / 4096 - 224) * 4096 + (128 + c.toNat / 64 % 64 - 128) * 64 +
            (128 + c.toNat % 64 - 128) = c.toNat := by
          omega
        rw [e, Char.ofNat_toNat]
      · rw [if_neg h3]
        simp only [List.cons_append, List.nil_append]
        rw [decodeUtf8_b4 _ _ _ _ _ (by omega) (by omega) (by omega)]
        have e : (240 + c.toNat / 262144 - 240) * 262144 + (128 + c.toNat / 4096 % 64 - 128) * 4096
            + (128 + c.toNat / 64 % 64 - 128) * 64 + (128 + c.toNat % 64 - 128) = c.toNat := by
          omega
        rw [e, Char.ofNat_toNat]

/-- `decodeUtf8` inverts `utf8Bytes`, character list version. -/
theorem decodeUtf8_flatten (l : List Char) :
    decodeUtf8 ((l.map encodeUtf8Char).flatten) = l := by
  induction l with
  | nil => exact decodeUtf8_nil
  | cons c cs ih =>
      simp only [List.map_cons, List.flatten_cons]
      rw [decodeUtf8_encodeUtf8Char, ih]

/-- Full string decoder for `bufferBase64` output. -/
def decodeBase64String (s : String) : String :=
  String.mk (decodeUtf8 (deBase64 s.data))

/-- `bufferBase64` is reversible: the decoder recovers the input string. -/
theorem decodeBase64String_bufferBase64 (s : String) :
    decodeBase64String (bufferBase64 s) = s := by
  unfold decodeBase64String bufferBase64
  dsimp only
  rw [deBase64_base64Chunks _ (utf8Bytes_lt s)]
  unfold utf8Bytes
  rw [decodeUtf8_flatten]

/-- `bufferBase64` is injective. -/
theorem bufferBase64_inj {a b : String} (h : bufferBase64 a = bufferBase64 b) : a = b := by
  have h2 := congrArg decodeBase64String h
  rwa [decodeBase64String_bufferBase64, decodeBase64String_bufferBase64] at h2

/-! ## Rate limiter (`src/app/lib/utils/rate-limiter.ts`) -/

/-- Maximum number of attempts before lockout. -/
def MAX_ATTEMPTS : Nat := 5

/-- Sliding window, 15 minutes in milliseconds. -/
def WINDOW_MS : Int := 15 * 60 * 1000

/-- Lockout period after too many attempts, 30 minutes in milliseconds. -/
def LOCKOUT_MS : Int := 30 * 60 * 1000

/-- One entry of a rate-limit store (`RateLimitRecord` in the source). -/
structure RateLimitRecord where
  count : Nat
  firstAttempt : Int
  lastAttempt : Int
deriving DecidableEq, Repr

/-- Return value of `checkRateLimit`; absent JS object fields are `none`. -/
structure RateLimitResult where
  limited : Bool
  remaining : Nat
  timeRemaining : Option Int
  message : Option String
deriving DecidableEq, Repr

/-- A rate-limit store (`Map<string, RateLimitRecord>`). -/
abbrev RateStore := String → Option RateLimitRecord

/-- `store.set(identifier, record)`. -/
def rateStoreSet (store : RateStore) (identifier : String) (r : RateLimitRecord) : RateStore :=
  fun k => if k = identifier then some r else store k

/-- The lockout-branch message of `checkRateLimit`. -/
def lockoutMessage (timeRemaining : Int) : String :=
  "Too many attempts. Please try again in " ++ toString (jsCeilDiv timeRemaining 60) ++ " minutes."

/-- `checkRateLimit(identifier, store)` from the source, with the implicit
`Date.now()` and the mutated store made explicit.  The JS merged guard
`!record || now - record.firstAttempt > WINDOW_MS` becomes the `none` match
arm plus the first `if`. -/
def checkRateLimit (identifier : String) (store : RateStore) (now : Int) :
    RateLimitResult × RateStore :=
  match store identifier with
  | none =>
      (⟨false, MAX_ATTEMPTS - 1, none, none⟩, rateStoreSet store identifier ⟨1, now, now⟩)
  | some record =>
      if now - record.firstAttempt > WINDOW_MS then
        (⟨false, MAX_ATTEMPTS - 1, none, none⟩, rateStoreSet store identifier ⟨1, now, now⟩)
      else if record.count ≥ MAX_ATTEMPTS then
        if now - record.lastAttempt > LOCKOUT_MS then
          (⟨false, MAX_ATTEMPTS - 1, none, none⟩, rateStoreSet store identifier ⟨1, now, now⟩)
        else
          (⟨true, 0, some (jsCeilDiv (LOCKOUT_MS - (now - record.lastAttempt)) 1000),
            some (lockoutMessage (jsCeilDiv (LOCKOUT_MS - (now - record.lastAttempt)) 1000))⟩,
           store)
      else
        (⟨decide (MAX_ATTEMPTS - (record.count + 1) = 0), MAX_ATTEMPTS - (record.count + 1), none,
          if MAX_ATTEMPTS - (record.count + 1) = 0
            then some "Too many attempts. Please try again later." else none⟩,
         rateStoreSet store identifier ⟨record.count + 1, record.firstAttempt, now⟩)

/-- `checkIpRateLimit(ip)`, with the module-level IP store explicit. -/
def checkIpRateLimit (ip : String) (ipStore : RateStore) (now : Int) :
    RateLimitResult × RateStore :=
  checkRateLimit ip ipStore now

/-- `checkEmailRateLimit(email)`, with the module-level email store explicit. -/
def checkEmailRateLimit (email : String) (emailStore : RateStore) (now : Int) :
    RateLimitResult × RateStore :=
  checkRateLimit email emailStore now

/-! ## Error handling (`src/app/lib/utils/error-handling.ts`) -/

/-- `AuthErrorType` enumeration. -/
inductive AuthErrorType where
  | invalidCredentials
  | rateLimited
  | accountLocked
  | verificationRequired
  | networkError
  | unknown
deriving DecidableEq, Repr

/-- A raw provider error object: its `message` field (with `""` standing for a
missing/empty message, both falsy under `error.message || String(error)`) and
the `String(error)` fallback rendering. -/
structure JsError where
  message : String
  asString : String
deriving DecidableEq, Repr

/-- `ErrorDetails` returned by `parseAuthError`. -/
structure ErrorDetails where
  message : String
  type : AuthErrorType
  retryAfter : Option Int
deriving DecidableEq, Repr

/-- The text classified by `parseAuthError`:
`error.message || String(error)`. -/
def rawErrorMessage (e : JsError) : String :=
  if e.message = "" then e.asString else e.message

/-- `parseAuthError(error)`; `none` models a falsy (`null`/empty) error. -/
def parseAuthError (error : Option JsError) : ErrorDetails :=
  match error with
  | none => ⟨"Unknown error", .unknown, none⟩
  | some e =>
      let errorMessage := rawErrorMessage e
      if strIncludes errorMessage "Invalid login credentials" then
        ⟨"Invalid email or password", .invalidCredentials, none⟩
      else if strIncludes errorMessage "Too many requests" then
        ⟨"Too many attempts. Please try again later", .rateLimited, some 900⟩
      else if strIncludes errorMessage "Email not confirmed" then
        ⟨"Please verify your email before logging in", .verificationRequired, none⟩
      else
        ⟨errorMessage, .unknown, none⟩

/-- The cookie jar (`cookies()`), keyed by cookie name. -/
abbrev CookieStore := String → Option String

/-- `cookieStore.set(key, value, options)`; expiry options are not modelled. -/
def cookieSet (store : CookieStore) (key value : String) : CookieStore :=
  fun k => if k = key then some value else store k

/-- Cookie key used by the failed-attempt tracker:
`` `failed_${Buffer.from(identifier).toString('base64')}` ``. -/
def failedAttemptKey (identifier : String) : String :=
  "failed_" ++ bufferBase64 identifier

/-- `trackFailedAttempt(identifier)`: reads the counter cookie (missing or
empty value falls back to `'0'`), increments it, writes it back and returns
the new count (`none` models `NaN`). -/
def trackFailedAttempt (identifier : String) (store : CookieStore) :
    Option Int × CookieStore :=
  let cookieKey := failedAttemptKey identifier
  let currentAttempts := parseIntJS (jsOr (store cookieKey) "0")
  let newAttempts := currentAttempts.map (· + 1)
  (newAttempts, cookieSet store cookieKey (jsNumToString newAttempts))

/-- `resetFailedAttempts(identifier)`: writes `'0'` to the counter cookie. -/
def resetFailedAttempts (identifier : String) (store : CookieStore) : CookieStore :=
  cookieSet store (failedAttemptKey identifier) "0"

/-- `isAccountLocked(identifier)`: true iff the tracked counter is ≥ 5. -/
def isAccountLocked (identifier : String) (store : CookieStore) : Bool :=
  jsGe (parseIntJS (jsOr (store (failedAttemptKey identifier)) "0")) 5

/-! ## Identity verification (`src/app/lib/utils/identity-verification.ts`) -/

/-- `DeviceInfo` record of the known-device store. -/
structure DeviceInfo where
  fingerprint : String
  userAgent : String
  lastSeen : Int
deriving DecidableEq, Repr

/-- The known-device store (`Map<string, DeviceInfo[]>`); a missing key and an
empty list are indistinguishable in the source (`knownDevices.get(u) || []`). -/
abbrev DeviceStore := String → List DeviceInfo

/-- `generateFingerprint(userAgent, ip)`:
`` Buffer.from(`${userAgent}:${ip}`).toString('base64') ``. -/
def generateFingerprint (userAgent ip : String) : String :=
  bufferBase64 (userAgent ++ ":" ++ ip)

/-- Result object of `checkDeviceVerification`. -/
structure DeviceVerification where
  isKnownDevice : Bool
  requiresVerification : Bool
deriving DecidableEq, Repr

/-- In-place update of the first list element satisfying `p` (the JS
`find`-then-mutate idiom). -/
def updateFirst (p : DeviceInfo → Bool) (f : DeviceInfo → DeviceInfo) :
    List DeviceInfo → List DeviceInfo
  | [] => []
  | x :: xs => if p x then f x :: xs else x :: updateFirst p f xs

/-- `checkDeviceVerification(userId, fingerprint, userAgent)`: refreshes
`lastSeen` of a matching device, or appends the new device. -/
def checkDeviceVerification (userId fingerprint userAgent : String) (now : Int)
    (devices : DeviceStore) : DeviceVerification × DeviceStore :=
  let userDevices := devices userId
  match userDevices.find? (fun d => d.fingerprint == fingerprint) with
  | some _ =>
      (⟨true, false⟩,
       fun k => if k = userId then
          updateFirst (fun d => d.fingerprint == fingerprint)
            (fun d => { d with lastSeen := now }) userDevices
        else devices k)
  | none =>
      (⟨false, true⟩,
       fun k => if k = userId then userDevices ++ [⟨fingerprint, userAgent, now⟩] else devices k)

/-- The failed-attempt count read by `checkSuspiciousActivity`:
`` cookieStore.get(`failed_attempts_${userId}`) `` parsed with
`parseInt(v, 10)` when the cookie exists, else `0`.  `none` models `NaN`. -/
def suspFailedAttempts (userId : String) (cookies : CookieStore) : Option Int :=
  match cookies ("failed_attempts_" ++ userId) with
  | some v => parseIntJS v
  | none => some 0

/-- `checkSuspiciousActivity(userId, fingerprint, userAgent)` (the documented
variant, lines 252-270 of the concatenated file): suspicious when the
failed-attempt count is ≥ 3, or when the fingerprint is new for the user and
the count is > 0. -/
def checkSuspiciousActivity (userId fingerprint : String) (cookies : CookieStore)
    (devices : DeviceStore) : Bool :=
  let failedAttempts := suspFailedAttempts userId cookies
  if jsGe failedAttempts 3 then true
  else
    let userDevices := devices userId
    let isNewDevice := !(userDevices.any (fun d => d.fingerprint == fingerprint))
    isNewDevice && jsGt failedAttempts 0

/-- The other `checkSuspiciousActivity` variant in the same file
(lines 81-97): requires a session and compares the global `failedAttempts`
cookie against 3, ignoring device novelty. -/
def checkSuspiciousActivitySession (hasSession : Bool) (cookies : CookieStore) : Bool :=
  if !hasSession then false
  else jsGe (parseIntJS (jsOr (cookies "failedAttempts") "0")) 3

/-! ## RBAC (`src/app/lib/utils/rbac.ts`) -/

/-- `UserRole` enumeration (the three-member variant; the two-member variant
is the same without `moderator`). -/
inductive UserRole where
  | user
  | admin
  | moderator
deriving DecidableEq, Repr

/-- Result object of the single-role `checkUserRole`. -/
structure RoleCheck where
  authorized : Bool
  role : Option UserRole
deriving DecidableEq, Repr

/-- Single-role `checkUserRole(requiredRole)` (the implementation appearing
twice in the file): `currentUser` is the identity provider's current user id,
`userRolesTable` the `user_roles` lookup (`none` models a query error or a
missing row, which defaults the role to `user`). -/
def checkUserRole (requiredRole : UserRole) (currentUser : Option String)
    (userRolesTable : String → Option UserRole) : RoleCheck :=
  match currentUser with
  | none => ⟨false, none⟩
  | some uid =>
      match userRolesTable uid with
      | none => ⟨decide (UserRole.user = requiredRole), some UserRole.user⟩
      | some r => ⟨decide (r = requiredRole), some r⟩

/-- Multi-role `checkUserRole(requiredRoles)` (the array variant at lines
116-141): `session` carries the session user id, `profilesTable` the
`profiles` lookup; a missing profile denies access outright. -/
def checkUserRoleMulti (requiredRoles : List UserRole) (session : Option String)
    (profilesTable : String → Option UserRole) : Bool :=
  match session with
  | none => false
  | some uid =>
      match profilesTable uid with
      | none => false
      | some r => requiredRoles.contains r

/-! ## Login orchestrator (`src/app/lib/actions/auth-actions.ts`) -/

/-- `LoginFormData`. -/
structure LoginFormData where
  email : String
  password : String
deriving DecidableEq, Repr

/-- Outcome of `supabase.auth.signInWithPassword`: either an error object or
success with `authData.user` (possibly absent). -/
inductive SignInOutcome where
  | err (e : JsError)
  | ok (user : Option String)
deriving DecidableEq, Repr

/-- The mutable process/request state the login flow touches. -/
structure AuthState where
  ipStore : RateStore
  emailStore : RateStore
  cookies : CookieStore
  devices : DeviceStore

/-- Observable effects of a `login` call, in execution order. -/
inductive Ev where
  | signIn
  | trackFailed (identifier : String)
  | resetFailed (identifier : String)
  | deviceCheck (userId fingerprint : String)
  | suspicious (userId fingerprint : String) (result : Bool)
  | logError
deriving DecidableEq, Repr

/-- Return object of `login`. -/
structure LoginOutput where
  error : Option String
deriving DecidableEq, Repr

/-- `login(data, clientIp)` from the source: rate-limit both keys, check
lockout, delegate to the provider (`outcome`), on failure track the attempt
and return the raw provider message, on success reset the counter, then run
device verification and suspicious-activity detection.  The user-agent header
and `Date.now()` are explicit; the returned trace lists the performed effects
in order. -/
def login (data : LoginFormData) (clientIp : Option String) (uaHeader : Option String)
    (outcome : SignInOutcome) (now : Int) (s : AuthState) :
    LoginOutput × AuthState × List Ev :=
  let userAgent := jsOr uaHeader "unknown"
  let ip := jsOr clientIp "unknown-ip"
  let ipChecked := checkIpRateLimit ip s.ipStore now
  let emailChecked := checkEmailRateLimit data.email s.emailStore now
  let ipCheck := ipChecked.1
  let emailCheck := emailChecked.1
  let s1 : AuthState := { s with ipStore := ipChecked.2, emailStore := emailChecked.2 }
  if ipCheck.limited then
    (⟨some (jsOr ipCheck.message "Too many login attempts from this IP. Please try again later.")⟩,
     s1, [])
  else if emailCheck.limited then
    (⟨some (jsOr emailCheck.message "Too many login attempts for this email. Please try again later.")⟩,
     s1, [])
  else if isAccountLocked data.email s1.cookies then
    (⟨some "Account temporarily locked due to too many failed attempts. Please try again later."⟩,
     s1, [])
  else
    match outcome with
    | .err e =>
        let tracked := trackFailedAttempt data.email s1.cookies
        (⟨some e.message⟩, { s1 with cookies := tracked.2 },
         [.signIn, .trackFailed data.email])
    | .ok userOpt =>
        let s2 : AuthState := { s1 with cookies := resetFailedAttempts data.email s1.cookies }
        match userOpt with
        | none => (⟨none⟩, s2, [.signIn, .resetFailed data.email])
        | some uid =>
            let fingerprint := generateFingerprint userAgent ip
            let devChecked := checkDeviceVerification uid fingerprint userAgent now s2.devices
            let s3 : AuthState := { s2 with devices := devChecked.2 }
            let isSuspicious := checkSuspiciousActivity uid fingerprint s3.cookies s3.devices
            (⟨none⟩, s3,
             [.signIn, .resetFailed data.email, .deviceCheck uid fingerprint,
              .suspicious uid fingerprint isSuspicious])

/-! ## Login-flow helper lemmas -/

/-- The tracker's cookie key is never the per-user key the suspicion check
reads: the base64 part contains no underscore, but `"attempts_" ++ userId`
starts with `attempts_`. -/
theorem failedAttemptKey_ne_perUser (identifier userId : String) :
    failedAttemptKey identifier ≠ "failed_attempts_" ++ userId := by
  intro h
  have hd := congrArg String.data h
  rw [string_data_append] at hd
  unfold failedAttemptKey at hd
  rw [string_data_append] at hd
  have hsplit : ("failed_attempts_" : String).data =
      ("failed_" : String).data ++ ("attempts_" : String).data := by decide
  rw [hsplit, List.append_assoc] at hd
  have hb : (bufferBase64 identifier).data =
      ("attempts_" : String).data ++ userId.data := List.append_cancel_left hd
  have hmem : '_' ∈ (bufferBase64 identifier).data := by
    rw [hb]
    exact List.mem_append_left _ (by decide)
  exact base64Chunks_no_underscore (utf8Bytes identifier) '_' hmem rfl

/-- The tracker's cookie key is never the global `failedAttempts` key either
(the seventh character of the tracker key is an underscore). -/
theorem failedAttemptKey_ne_global (identifier : String) :
    failedAttemptKey identifier ≠ "failedAttempts" := by
  intro h
  have hd := congrArg (fun s => s.data.take 7) h
  simp only [failedAttemptKey, string_data_append] at hd
  have h7 : ("failed_" : String).data.length = 7 := by decide
  rw [show (7 : Nat) = ("failed_" : String).data.length from h7.symm,
    List.take_left] at hd
  revert hd
  decide

/-- The lockout message is never the empty string. -/
theorem lockoutMessage_ne_empty (t : Int) : lockoutMessage t ≠ "" := by
  intro h
  have hd := congrArg String.data h
  unfold lockoutMessage at hd
  rw [string_data_append, string_data_append] at hd
  have h1 := (List.append_eq_nil.mp (List.append_eq_nil.mp hd).1).1
  revert h1
  decide

/-- Whenever `checkRateLimit` answers `limited = true` it also carries a
non-empty message (so `message || default` yields that message). -/
theorem checkRateLimit_limited_message (identifier : String) (store : RateStore) (now : Int)
    (h : (checkRateLimit identifier store now).1.limited = true) :
    ∃ m, (checkRateLimit identifier store now).1.message = some m ∧ m ≠ "" := by
  unfold checkRateLimit at h ⊢
  cases hrec : store identifier with
  | none => rw [hrec] at h; simp at h
  | some r =>
      rw [hrec] at h
      dsimp only at h ⊢
      by_cases hw : now - r.firstAttempt > WINDOW_MS
      · rw [if_pos hw] at h; simp at h
      · rw [if_neg hw] at h ⊢
        by_cases hc : r.count ≥ MAX_ATTEMPTS
        · rw [if_pos hc] at h ⊢
          by_cases hl : now - r.lastAttempt > LOCKOUT_MS
          · rw [if_pos hl] at h; simp at h
          · rw [if_neg hl]
            exact ⟨_, rfl, lockoutMessage_ne_empty _⟩
        · rw [if_neg hc] at h ⊢
          have h0 : MAX_ATTEMPTS - (r.count + 1) = 0 := of_decide_eq_true h
          rw [if_pos h0]
          exact ⟨_, rfl, by decide⟩

/-- Updating only `lastSeen` of the first matching device does not change
whether some device carries the fingerprint. -/
theorem updateFirst_lastSeen_any (fp : String) (now : Int) (l : List DeviceInfo) :
    (updateFirst (fun d => d.fingerprint == fp) (fun d => { d with lastSeen := now }) l).any
      (fun d => d.fingerprint == fp) = l.any (fun d => d.fingerprint == fp) := by
  induction l with
  | nil => rfl
  | cons x xs ih =>
      unfold updateFirst
      by_cases hx : (x.fingerprint == fp) = true
      · rw [if_pos hx]
        simp only [List.any_cons, ih]
      · rw [if_neg hx]
        simp only [List.any_cons, ih]

/-- After `checkDeviceVerification`, the checked fingerprint is always present
in the user's known-device list (it is appended when absent). -/
theorem checkDeviceVerification_ensures_known (userId fp ua : String) (now : Int)
    (devices : DeviceStore) :
    (((checkDeviceVerification userId fp ua now devices).2) userId).any
      (fun d => d.fingerprint == fp) = true := by
  unfold checkDeviceVerification
  dsimp only
  cases hf : (devices userId).find? (fun d => d.fingerprint == fp) with
  | some d0 =>
      dsimp only
      rw [if_pos rfl, updateFirst_lastSeen_any]
      have hmem := List.mem_of_find?_eq_some hf
      have hp := List.find?_some hf
      exact List.any_eq_true.mpr ⟨d0, hmem, hp⟩
  | none =>
      dsimp only
      rw [if_pos rfl]
      simp

/-- A suspicion check made when the fingerprint is already known reduces to
the failed-attempt-count test alone. -/
theorem checkSuspiciousActivity_of_known (userId fp : String) (cookies : CookieStore)
    (devices : DeviceStore)
    (h : (devices userId).any (fun d => d.fingerprint == fp) = true) :
    checkSuspiciousActivity userId fp cookies devices =
      jsGe (suspFailedAttempts userId cookies) 3 := by
  unfold checkSuspiciousActivity
  by_cases hge : jsGe (suspFailedAttempts userId cookies) 3 = true
  · rw [if_pos hge, hge]
  · have hge' : jsGe (suspFailedAttempts userId cookies) 3 = false := by simpa using hge
    rw [if_neg (by rw [hge']; exact Bool.false_ne_true)]
    dsimp only
    rw [h, hge']
    simp

/-- Resetting a tracker counter never touches the per-user suspicion cookie. -/
theorem suspFailedAttempts_reset (identifier userId : String) (c : CookieStore) :
    suspFailedAttempts userId (resetFailedAttempts identifier c) =
      suspFailedAttempts userId c := by
  unfold suspFailedAttempts resetFailedAttempts cookieSet
  rw [if_neg (failedAttemptKey_ne_perUser identifier userId).symm]

/-! ## Concrete demonstration states used by witnesses -/

/-- A rate-limit store holding a locked record for one IP. -/
def demoRateStore : RateStore :=
  fun k => if k = "1.2.3.4" then some ⟨5, 0, 0⟩ else none

/-- A completely empty authentication state. -/
def emptyAuthState : AuthState :=
  ⟨fun _ => none, fun _ => none, fun _ => none, fun _ => []⟩

/-- An authentication state whose IP store has a locked record. -/
def demoLockedIpState : AuthState :=
  ⟨demoRateStore, fun _ => none, fun _ => none, fun _ => []⟩

/-- A login form value used in witnesses. -/
def demoLoginData : LoginFormData := ⟨"a@b.c", "pw"⟩

/-! ## Rate limiter claims -/

/-- C2: while a locked record exists for an identifier (count at least
`MAX_ATTEMPTS`), its window has not expired, and the lockout has not elapsed
since the last attempt, `checkRateLimit` returns `limited = true`,
`remaining = 0` and `timeRemaining = ceil((LOCKOUT_MS - (now - lastAttempt)) / 1000)`. -/
theorem checkRateLimit_lockout_spec (identifier : String) (store : RateStore) (now : Int)
    (r : RateLimitRecord) (hrec : store identifier = some r)
    (hwin : now - r.firstAttempt ≤ WINDOW_MS)
    (hcount : MAX_ATTEMPTS ≤ r.count)
    (hlock : now - r.lastAttempt ≤ LOCKOUT_MS) :
    (checkRateLimit identifier store now).1 =
      ⟨true, 0, some (jsCeilDiv (LOCKOUT_MS - (now - r.lastAttempt)) 1000),
        some (lockoutMessage (jsCeilDiv (LOCKOUT_MS - (now - r.lastAttempt)) 1000))⟩ := by
  unfold checkRateLimit
  rw [hrec]
  simp only [if_neg (not_lt.mpr hwin), if_pos hcount, if_neg (not_lt.mpr hlock)]

/-- Witness for C2 at a concrete locked store. -/
theorem checkRateLimit_lockout_spec_witness :
    demoRateStore "1.2.3.4" = some ⟨5, 0, 0⟩ ∧
    (1000 : Int) - 0 ≤ WINDOW_MS ∧ MAX_ATTEMPTS ≤ 5 ∧ (1000 : Int) - 0 ≤ LOCKOUT_MS ∧
    (checkRateLimit "1.2.3.4" demoRateStore 1000).1 =
      ⟨true, 0, some 1799, some "Too many attempts. Please try again in 30 minutes."⟩ := by
  refine ⟨rfl, by decide, by decide, by decide, ?_⟩
  rw [checkRateLimit_lockout_spec "1.2.3.4" demoRateStore 1000 ⟨5, 0, 0⟩ rfl
    (by decide) (by decide) (by decide)]
  decide

/-- C6 (amended): every `checkRateLimit` call mutates the store entry for the
identifier — creating a fresh record, resetting it after window or lockout
expiry, or incrementing it — EXCEPT calls made during an active lockout
(count at least `MAX_ATTEMPTS`, window not expired, lockout not elapsed),
which return the store entirely unchanged. -/
theorem checkRateLimit_store_effect (identifier : String) (store : RateStore) (now : Int) :
    (store identifier = none →
      (checkRateLimit identifier store now).2 = rateStoreSet store identifier ⟨1, now, now⟩) ∧
    (∀ r, store identifier = some r → WINDOW_MS < now - r.firstAttempt →
      (checkRateLimit identifier store now).2 = rateStoreSet store identifier ⟨1, now, now⟩) ∧
    (∀ r, store identifier = some r → now - r.firstAttempt ≤ WINDOW_MS →
      MAX_ATTEMPTS ≤ r.count → LOCKOUT_MS < now - r.lastAttempt →
      (checkRateLimit identifier store now).2 = rateStoreSet store identifier ⟨1, now, now⟩) ∧
    (∀ r, store identifier = some r → now - r.firstAttempt ≤ WINDOW_MS →
      MAX_ATTEMPTS ≤ r.count → now - r.lastAttempt ≤ LOCKOUT_MS →
      (checkRateLimit identifier store now).2 = store) ∧
    (∀ r, store identifier = some r → now - r.firstAttempt ≤ WINDOW_MS →
      r.count < MAX_ATTEMPTS →
      (checkRateLimit identifier store now).2 =
        rateStoreSet store identifier ⟨r.count + 1, r.firstAttempt, now⟩) := by
  refine ⟨?_, ?_, ?_, ?_, ?_⟩
  · intro h; unfold checkRateLimit; rw [h]
  · intro r h hw; unfold checkRateLimit; rw [h]; simp only [if_pos hw]
  · intro r h hw hc hl; unfold checkRateLimit; rw [h]
    simp only [if_neg (not_lt.mpr hw), if_pos hc, if_pos hl]
  · intro r h hw hc hl; unfold checkRateLimit; rw [h]
    simp only [if_neg (not_lt.mpr hw), if_pos hc, if_neg (not_lt.mpr hl)]
  · intro r h hw hc; unfold checkRateLimit; rw [h]
    simp only [if_neg (not_lt.mpr hw), if_neg (not_le.mpr hc)]

/-- Witness for the amended C6: a fresh-record call does set the entry, by the
theorem's first conjunct. -/
theorem checkRateLimit_store_effect_witness :
    (fun _ => none : RateStore) "k" = none ∧
    (checkRateLimit "k" (fun _ => none) 7).2 = rateStoreSet (fun _ => none) "k" ⟨1, 7, 7⟩ :=
  ⟨rfl, (checkRateLimit_store_effect "k" (fun _ => none) 7).1 rfl⟩

/-- Counterexample to C6 as stated: a check made while the identifier is in
the lockout period leaves the store — and hence the identifier's entry —
completely unchanged, even though the call is answered `limited = true`. -/
theorem checkRateLimit_lockout_no_mutation :
    demoRateStore "1.2.3.4" = some ⟨5, 0, 0⟩ ∧
    (checkRateLimit "1.2.3.4" demoRateStore 1000).1.limited = true ∧
    (checkRateLimit "1.2.3.4" demoRateStore 1000).2 = demoRateStore := by
  exact ⟨rfl, by decide, rfl⟩

/-! ## Error classifier claim -/

/-- C7: `parseAuthError` classifies by first matching substring — `"Invalid
login credentials"` to `INVALID_CREDENTIALS` with the fixed message, then
`"Too many requests"` to `RATE_LIMITED` with `retryAfter = 900`, then
`"Email not confirmed"` to `VERIFICATION_REQUIRED`; any other non-empty error
is `UNKNOWN` with the original message preserved verbatim, and a falsy error
is `UNKNOWN` with message `"Unknown error"`. -/
theorem parseAuthError_spec :
    parseAuthError none = ⟨"Unknown error", .unknown, none⟩ ∧
    (∀ e : JsError, strIncludes (rawErrorMessage e) "Invalid login credentials" = true →
      parseAuthError (some e) = ⟨"Invalid email or password", .invalidCredentials, none⟩) ∧
    (∀ e : JsError, strIncludes (rawErrorMessage e) "Invalid login credentials" = false →
      strIncludes (rawErrorMessage e) "Too many requests" = true →
      parseAuthError (some e) =
        ⟨"Too many attempts. Please try again later", .rateLimited, some 900⟩) ∧
    (∀ e : JsError, strIncludes (rawErrorMessage e) "Invalid login credentials" = false →
      strIncludes (rawErrorMessage e) "Too many requests" = false →
      strIncludes (rawErrorMessage e) "Email not confirmed" = true →
      parseAuthError (some e) =
        ⟨"Please verify your email before logging in", .verificationRequired, none⟩) ∧
    (∀ e : JsError, strIncludes (rawErrorMessage e) "Invalid login credentials" = false →
      strIncludes (rawErrorMessage e) "Too many requests" = false →
      strIncludes (rawErrorMessage e) "Email not confirmed" = false →
      parseAuthError (some e) = ⟨rawErrorMessage e, .unknown, none⟩) := by
  refine ⟨rfl, ?_, ?_, ?_, ?_⟩
  · intro e h1; unfold parseAuthError; simp only [h1, if_true]
  · intro e h1 h2; unfold parseAuthError; simp only [h1, h2]; rfl
  · intro e h1 h2 h3; unfold parseAuthError; simp only [h1, h2, h3]; rfl
  · intro e h1 h2 h3; unfold parseAuthError; simp only [h1, h2, h3]; rfl

/-- Witness for C7 at concrete provider errors of every class. -/
theorem parseAuthError_spec_witness :
    parseAuthError (some ⟨"Invalid login credentials", "AuthApiError"⟩) =
      ⟨"Invalid email or password", .invalidCredentials, none⟩ ∧
    parseAuthError (some ⟨"Too many requests sent", "AuthApiError"⟩) =
      ⟨"Too many attempts. Please try again later", .rateLimited, some 900⟩ ∧
    parseAuthError (some ⟨"Email not confirmed", "AuthApiError"⟩) =
      ⟨"Please verify your email before logging in", .verificationRequired, none⟩ ∧
    parseAuthError (some ⟨"some new wording", "AuthApiError"⟩) =
      ⟨"some new wording", .unknown, none⟩ := by
  refine ⟨?_, ?_, ?_, ?_⟩
  · exact parseAuthError_spec.2.1 _ (by decide)
  · exact parseAuthError_spec.2.2.1 _ (by decide) (by decide)
  · exact parseAuthError_spec.2.2.2.1 _ (by decide) (by decide) (by decide)
  · rw [parseAuthError_spec.2.2.2.2 _ (by decide) (by decide) (by decide)]; decide

/-! ## Suspicious-activity claim -/

/-- C4: the documented `checkSuspiciousActivity` returns true exactly when the
per-user failed-attempt count is at least 3, or the fingerprint is absent from
the user's known-device list and the count is positive; in particular it
returns false whenever the count is 0, even for a new device. -/
theorem checkSuspiciousActivity_spec (userId fingerprint : String)
    (cookies : CookieStore) (devices : DeviceStore) :
    (checkSuspiciousActivity userId fingerprint cookies devices = true ↔
      (jsGe (suspFailedAttempts userId cookies) 3 = true ∨
        ((∀ d ∈ devices userId, d.fingerprint ≠ fingerprint) ∧
          jsGt (suspFailedAttempts userId cookies) 0 = true))) ∧
    (suspFailedAttempts userId cookies = some 0 →
      checkSuspiciousActivity userId fingerprint cookies devices = false) := by
  constructor
  · unfold checkSuspiciousActivity
    by_cases h : jsGe (suspFailedAttempts userId cookies) 3 = true
    · simp [h]
    · have h' : jsGe (suspFailedAttempts userId cookies) 3 = false := by
        simpa using h
      simp [h', List.any_eq_false]
  · intro h0
    unfold checkSuspiciousActivity
    rw [h0]
    simp [jsGe, jsGt]

/-- Witness for C4: with a zero count and an empty device list (so the
fingerprint is new), the check reports no suspicion. -/
theorem checkSuspiciousActivity_spec_witness :
    suspFailedAttempts "u1" (fun _ => none) = some 0 ∧
    checkSuspiciousActivity "u1" "fp" (fun _ => none) (fun _ => []) = false :=
  ⟨rfl, (checkSuspiciousActivity_spec "u1" "fp" (fun _ => none) (fun _ => [])).2 rfl⟩

/-! ## RBAC claim -/

/-- C5 (amended): `checkUserRole` is unauthorized without a current user; the
single-role variant resolves the stored role, defaulting to `user` when no
role row exists, and authorizes exactly when the resolved role equals the
required role (so a caller resolving to `user` is denied an admin-only
resource and a caller with role `admin` is granted it); the multi-role variant
does NOT default — with no profile row it denies outright, and with a stored
role it authorizes exactly when that role is a member of the required set. -/
theorem checkUserRole_spec (requiredRole : UserRole)
    (userRolesTable profilesTable : String → Option UserRole) :
    checkUserRole requiredRole none userRolesTable = ⟨false, none⟩ ∧
    (∀ uid, userRolesTable uid = none →
      checkUserRole requiredRole (some uid) userRolesTable =
        ⟨decide (UserRole.user = requiredRole), some UserRole.user⟩) ∧
    (∀ uid r, userRolesTable uid = some r →
      (checkUserRole requiredRole (some uid) userRolesTable).role = some r ∧
      ((checkUserRole requiredRole (some uid) userRolesTable).authorized = true ↔
        r = requiredRole)) ∧
    (∀ uid, userRolesTable uid = some UserRole.user →
      (checkUserRole UserRole.admin (some uid) userRolesTable).authorized = false) ∧
    (∀ uid, userRolesTable uid = some UserRole.admin →
      (checkUserRole UserRole.admin (some uid) userRolesTable).authorized = true) ∧
    (∀ requiredRoles : List UserRole,
      checkUserRoleMulti requiredRoles none profilesTable = false) ∧
    (∀ requiredRoles : List UserRole, ∀ uid, profilesTable uid = none →
      checkUserRoleMulti requiredRoles (some uid) profilesTable = false) ∧
    (∀ requiredRoles uid r, profilesTable uid = some r →
      checkUserRoleMulti requiredRoles (some uid) profilesTable =
        requiredRoles.contains r) := by
  refine ⟨rfl, ?_, ?_, ?_, ?_, ?_, ?_, ?_⟩
  · intro uid h; simp only [checkUserRole, h]
  · intro uid r h; simp only [checkUserRole, h]; simp
  · intro uid h; simp only [checkUserRole, h]; rfl
  · intro uid h; simp only [checkUserRole, h]; rfl
  · intro requiredRoles; rfl
  · intro requiredRoles uid h; simp only [checkUserRoleMulti, h]
  · intro requiredRoles uid r h; simp only [checkUserRoleMulti, h]

/-- Witness for C5 (amended): a no-user call, a defaulted `user` role denied
for an admin-only check, denial of admin for a `user` role, grant for an
`admin` role, the multi-role denial on a missing profile row, and multi-role
membership grant. -/
theorem checkUserRole_spec_witness :
    checkUserRole UserRole.admin none (fun _ => none) = ⟨false, none⟩ ∧
    checkUserRole UserRole.admin (some "u1") (fun _ => none) =
      ⟨false, some UserRole.user⟩ ∧
    (checkUserRole UserRole.admin (some "u1") (fun _ => some UserRole.user)).authorized
      = false ∧
    (checkUserRole UserRole.admin (some "u1") (fun _ => some UserRole.admin)).authorized
      = true ∧
    checkUserRoleMulti [UserRole.user] (some "u1") (fun _ => none) = false ∧
    checkUserRoleMulti [UserRole.moderator, UserRole.admin] (some "u1")
      (fun _ => some UserRole.admin) = true := by
  refine ⟨(checkUserRole_spec UserRole.admin (fun _ => none) (fun _ => none)).1,
    ?_, ?_, ?_, ?_, ?_⟩
  · rw [(checkUserRole_spec UserRole.admin (fun _ => none) (fun _ => none)).2.1 "u1" rfl]
    decide
  · exact (checkUserRole_spec UserRole.admin (fun _ => some UserRole.user)
      (fun _ => none)).2.2.2.1 "u1" rfl
  · exact (checkUserRole_spec UserRole.admin (fun _ => some UserRole.admin)
      (fun _ => none)).2.2.2.2.1 "u1" rfl
  · exact (checkUserRole_spec UserRole.admin (fun _ => none)
      (fun _ => none)).2.2.2.2.2.2.1 [UserRole.user] "u1" rfl
  · rw [(checkUserRole_spec UserRole.admin (fun _ => none)
      (fun _ => some UserRole.admin)).2.2.2.2.2.2.2 [UserRole.moderator, UserRole.admin]
      "u1" UserRole.admin rfl]
    decide

/-- Counterexample to C5 as stated: the multi-role `checkUserRole` variant
does not default a missing role assignment to `user` — an authenticated
caller with no profile row is denied even when the base role `user` is in
the required set, where the claim's defaulting clause predicts
authorization. -/
theorem checkUserRoleMulti_no_default :
    (fun _ => (none : Option UserRole)) "u1" = none ∧
    checkUserRoleMulti [UserRole.user] (some "u1") (fun _ => none) = false :=
  ⟨rfl, rfl⟩

/-! ## Tracker-operation sequences (claim C9) -/

/-- One failed-attempt tracker operation. -/
inductive FAOp where
  | track (identifier : String)
  | reset (identifier : String)

/-- Apply one tracker operation to the cookie store. -/
def applyFAOp (op : FAOp) (store : CookieStore) : CookieStore :=
  match op with
  | .track identifier => (trackFailedAttempt identifier store).2
  | .reset identifier => resetFailedAttempts identifier store

/-- Apply a sequence of tracker operations, first operation first. -/
def applyFAOps : List FAOp → CookieStore → CookieStore
  | [], store => store
  | op :: ops, store => applyFAOps ops (applyFAOp op store)

/-- A single tracker operation only writes its own `failed_...` cookie key. -/
theorem applyFAOp_frame (op : FAOp) (store : CookieStore) (k : String)
    (h : ∀ identifier, k ≠ failedAttemptKey identifier) :
    applyFAOp op store k = store k := by
  cases op with
  | track identifier =>
      unfold applyFAOp trackFailedAttempt cookieSet
      simp only [if_neg (h identifier)]
  | reset identifier =>
      unfold applyFAOp resetFailedAttempts cookieSet
      simp only [if_neg (h identifier)]

/-- A sequence of tracker operations leaves every non-tracker key unchanged. -/
theorem applyFAOps_frame (ops : List FAOp) (store : CookieStore) (k : String)
    (h : ∀ identifier, k ≠ failedAttemptKey identifier) :
    applyFAOps ops store k = store k := by
  induction ops generalizing store with
  | nil => rfl
  | cons op ops ih =>
      unfold applyFAOps
      rw [ih (applyFAOp op store), applyFAOp_frame op store k h]

/-- The suspicion check's per-user count only depends on the per-user cookie,
which no tracker operation writes. -/
theorem suspFailedAttempts_frame (ops : List FAOp) (store : CookieStore) (userId : String) :
    suspFailedAttempts userId (applyFAOps ops store) = suspFailedAttempts userId store := by
  unfold suspFailedAttempts
  rw [applyFAOps_frame ops store ("failed_attempts_" ++ userId)
    (fun identifier => (failedAttemptKey_ne_perUser identifier userId).symm)]

/-- C9: the cookie key written by `trackFailedAttempt` / `resetFailedAttempts`
(`failed_` plus base64 of the identifier, an alphabet without underscore) is
distinct from both keys `checkSuspiciousActivity` variants read
(`failed_attempts_<userId>` and `failedAttempts`); hence any sequence of
tracker calls leaves the count each variant observes — and so its result —
unchanged. -/
theorem trackFailedAttempt_invisible_to_suspicion :
    (∀ identifier userId : String,
      failedAttemptKey identifier ≠ "failed_attempts_" ++ userId) ∧
    (∀ identifier : String, failedAttemptKey identifier ≠ "failedAttempts") ∧
    (∀ (ops : List FAOp) (store : CookieStore) (devices : DeviceStore)
        (userId fingerprint : String),
      checkSuspiciousActivity userId fingerprint (applyFAOps ops store) devices =
        checkSuspiciousActivity userId fingerprint store devices) ∧
    (∀ (ops : List FAOp) (store : CookieStore) (hasSession : Bool),
      checkSuspiciousActivitySession hasSession (applyFAOps ops store) =
        checkSuspiciousActivitySession hasSession store) := by
  refine ⟨failedAttemptKey_ne_perUser, failedAttemptKey_ne_global, ?_, ?_⟩
  · intro ops store devices userId fingerprint
    unfold checkSuspiciousActivity
    rw [suspFailedAttempts_frame]
  · intro ops store hasSession
    unfold checkSuspiciousActivitySession
    rw [applyFAOps_frame ops store "failedAttempts"
      (fun identifier => (failedAttemptKey_ne_global identifier).symm)]

/-- C1: when the IP rate-limit check (or, failing that, the email rate-limit
check) answers `limited = true`, `login` returns that check's message as the
error, performs no provider sign-in, does not touch the failed-attempt
cookies, and does not modify the known-device store. -/
theorem login_rateLimited_fails_fast (data : LoginFormData)
    (clientIp uaHeader : Option String) (outcome : SignInOutcome) (now : Int)
    (s : AuthState) :
    ((checkIpRateLimit (jsOr clientIp "unknown-ip") s.ipStore now).1.limited = true →
      ∃ m, (checkIpRateLimit (jsOr clientIp "unknown-ip") s.ipStore now).1.message = some m ∧
        (login data clientIp uaHeader outcome now s).1.error = some m ∧
        (login data clientIp uaHeader outcome now s).2.1.cookies = s.cookies ∧
        (login data clientIp uaHeader outcome now s).2.1.devices = s.devices ∧
        (login data clientIp uaHeader outcome now s).2.2 = []) ∧
    ((checkIpRateLimit (jsOr clientIp "unknown-ip") s.ipStore now).1.limited = false →
      (checkEmailRateLimit data.email s.emailStore now).1.limited = true →
      ∃ m, (checkEmailRateLimit data.email s.emailStore now).1.message = some m ∧
        (login data clientIp uaHeader outcome now s).1.error = some m ∧
        (login data clientIp uaHeader outcome now s).2.1.cookies = s.cookies ∧
        (login data clientIp uaHeader outcome now s).2.1.devices = s.devices ∧
        (login data clientIp uaHeader outcome now s).2.2 = []) := by
  constructor
  · intro hip
    obtain ⟨m, hm, hne⟩ := checkRateLimit_limited_message _ _ _ hip
    refine ⟨m, hm, ?_, ?_, ?_, ?_⟩
    · unfold login
      simp only [hip, if_true]
      unfold checkIpRateLimit
      rw [hm]
      dsimp only [jsOr]
      rw [if_neg hne]
    · unfold login
      simp only [hip, if_true]
    · unfold login
      simp only [hip, if_true]
    · unfold login
      simp only [hip, if_true]
  · intro hip hem
    obtain ⟨m, hm, hne⟩ := checkRateLimit_limited_message _ _ _ hem
    refine ⟨m, hm, ?_, ?_, ?_, ?_⟩
    · unfold login
      simp only [hip, hem, if_true, Bool.false_eq_true, if_false]
      unfold checkEmailRateLimit
      rw [hm]
      dsimp only [jsOr]
      rw [if_neg hne]
    · unfold login
      simp only [hip, hem, if_true, Bool.false_eq_true, if_false]
    · unfold login
      simp only [hip, hem, if_true, Bool.false_eq_true, if_false]
    · unfold login
      simp only [hip, hem, if_true, Bool.false_eq_true, if_false]

/-- Witness for C1: a locked IP store short-circuits a concrete login. -/
theorem login_rateLimited_fails_fast_witness :
    (checkIpRateLimit "1.2.3.4" demoLockedIpState.ipStore 1000).1.limited = true ∧
    (login demoLoginData (some "1.2.3.4") none (.ok none) 1000 demoLockedIpState).1.error =
      some "Too many attempts. Please try again in 30 minutes." ∧
    (login demoLoginData (some "1.2.3.4") none (.ok none) 1000 demoLockedIpState).2.1.cookies
      = demoLockedIpState.cookies ∧
    (login demoLoginData (some "1.2.3.4") none (.ok none) 1000 demoLockedIpState).2.1.devices
      = demoLockedIpState.devices ∧
    (login demoLoginData (some "1.2.3.4") none (.ok none) 1000 demoLockedIpState).2.2 = [] := by
  have h := (login_rateLimited_fails_fast demoLoginData (some "1.2.3.4") none
    (.ok none) 1000 demoLockedIpState).1 (by decide)
  obtain ⟨m, hm, herr, hcook, hdev, htr⟩ := h
  have hm' : m = "Too many attempts. Please try again in 30 minutes." := by
    have : some m = some "Too many attempts. Please try again in 30 minutes." := by
      rw [← hm]; decide
    exact Option.some.inj this
  exact ⟨by decide, hm' ▸ herr, hcook, hdev, htr⟩

/-- C3 (amended): on a provider credential failure (with the rate-limit and
lockout gates passed), `login` increments the failed-attempt counter for the
submitted email and returns the provider's message verbatim; no
classification or logging step runs in this path. -/
theorem login_failure_tracks_without_logging (data : LoginFormData)
    (clientIp uaHeader : Option String) (e : JsError) (now : Int) (s : AuthState)
    (hip : (checkIpRateLimit (jsOr clientIp "unknown-ip") s.ipStore now).1.limited = false)
    (hem : (checkEmailRateLimit data.email s.emailStore now).1.limited = false)
    (hlock : isAccountLocked data.email s.cookies = false) :
    (login data clientIp uaHeader (.err e) now s).1.error = some e.message ∧
    (login data clientIp uaHeader (.err e) now s).2.1.cookies =
      (trackFailedAttempt data.email s.cookies).2 ∧
    (login data clientIp uaHeader (.err e) now s).2.1.devices = s.devices ∧
    (login data clientIp uaHeader (.err e) now s).2.2 =
      [Ev.signIn, Ev.trackFailed data.email] ∧
    Ev.logError ∉ (login data clientIp uaHeader (.err e) now s).2.2 ∧
    (∀ n : Int, parseIntJS (jsOr (s.cookies (failedAttemptKey data.email)) "0") = some n →
      (login data clientIp uaHeader (.err e) now s).2.1.cookies
        (failedAttemptKey data.email) = some (toString (n + 1))) := by
  have hred : login data clientIp uaHeader (.err e) now s =
      (⟨some e.message⟩,
       ⟨(checkIpRateLimit (jsOr clientIp "unknown-ip") s.ipStore now).2,
        (checkEmailRateLimit data.email s.emailStore now).2,
        (trackFailedAttempt data.email s.cookies).2, s.devices⟩,
       [Ev.signIn, Ev.trackFailed data.email]) := by
    unfold login
    simp only [hip, hem, hlock, Bool.false_eq_true, if_false]
  refine ⟨by rw [hred], by rw [hred], by rw [hred], by rw [hred], by rw [hred]; simp, ?_⟩
  intro n hn
  rw [hred]
  unfold trackFailedAttempt cookieSet
  dsimp only
  rw [if_pos rfl, hn]
  rfl

/-- Witness for C3 (amended) at a failing concrete login. -/
theorem login_failure_tracks_without_logging_witness :
    (login demoLoginData none none (.err ⟨"Invalid login credentials", "AuthApiError"⟩)
      0 emptyAuthState).1.error = some "Invalid login credentials" ∧
    (login demoLoginData none none (.err ⟨"Invalid login credentials", "AuthApiError"⟩)
      0 emptyAuthState).2.1.cookies (failedAttemptKey "a@b.c") = some "1" := by
  have h := login_failure_tracks_without_logging demoLoginData none none
    ⟨"Invalid login credentials", "AuthApiError"⟩ 0 emptyAuthState
    (by decide) (by decide) (by decide)
  refine ⟨h.1, ?_⟩
  have h6 := h.2.2.2.2.2 0 (by decide)
  have hkey : demoLoginData.email = "a@b.c" := rfl
  rw [hkey] at h6
  rw [h6]
  decide

/-- Counterexample to C3 as stated: a concrete failing login performs only the
provider call and the counter increment — no classification and no logging
(`Ev.logError` never appears in the trace), and the raw provider message is
returned unsanitized. -/
theorem login_failure_never_logs :
    (login demoLoginData none none (.err ⟨"Invalid login credentials", "AuthApiError"⟩)
      0 emptyAuthState).2.2 = [Ev.signIn, Ev.trackFailed "a@b.c"] ∧
    Ev.logError ∉ (login demoLoginData none none
      (.err ⟨"Invalid login credentials", "AuthApiError"⟩) 0 emptyAuthState).2.2 ∧
    (login demoLoginData none none (.err ⟨"Invalid login credentials", "AuthApiError"⟩)
      0 emptyAuthState).1.error = some "Invalid login credentials" := by
  refine ⟨by decide, by decide, by decide⟩

/-- C10: in a successful login the device-verification step precedes the
suspicion check in the trace, and because it inserts the current fingerprint
into the known-device list, the suspicion verdict equals the
failed-attempt-count test alone (device novelty can never trigger it). -/
theorem login_success_device_check_precedes_suspicion (data : LoginFormData)
    (clientIp uaHeader : Option String) (uid : String) (now : Int) (s : AuthState)
    (hip : (checkIpRateLimit (jsOr clientIp "unknown-ip") s.ipStore now).1.limited = false)
    (hem : (checkEmailRateLimit data.email s.emailStore now).1.limited = false)
    (hlock : isAccountLocked data.email s.cookies = false) :
    (login data clientIp uaHeader (.ok (some uid)) now s).2.2 =
      [Ev.signIn, Ev.resetFailed data.email,
       Ev.deviceCheck uid
         (generateFingerprint (jsOr uaHeader "unknown") (jsOr clientIp "unknown-ip")),
       Ev.suspicious uid
         (generateFingerprint (jsOr uaHeader "unknown") (jsOr clientIp "unknown-ip"))
         (jsGe (suspFailedAttempts uid s.cookies) 3)] ∧
    ((login data clientIp uaHeader (.ok (some uid)) now s).2.1.devices uid).any
      (fun d => d.fingerprint ==
        generateFingerprint (jsOr uaHeader "unknown") (jsOr clientIp "unknown-ip")) = true := by
  have hsusp : checkSuspiciousActivity uid
      (generateFingerprint (jsOr uaHeader "unknown") (jsOr clientIp "unknown-ip"))
      (resetFailedAttempts data.email s.cookies)
      (checkDeviceVerification uid
        (generateFingerprint (jsOr uaHeader "unknown") (jsOr clientIp "unknown-ip"))
        (jsOr uaHeader "unknown") now s.devices).2 =
      jsGe (suspFailedAttempts uid s.cookies) 3 := by
    rw [checkSuspiciousActivity_of_known _ _ _ _
      (checkDeviceVerification_ensures_known uid _ _ now s.devices)]
    rw [suspFailedAttempts_reset]
  constructor
  · unfold login
    simp only [hip, hem, hlock, Bool.false_eq_true, if_false]
    rw [hsusp]
  · unfold login
    simp only [hip, hem, hlock, Bool.false_eq_true, if_false]
    exact checkDeviceVerification_ensures_known uid _ _ now s.devices

/-- Witness for C10 at a concrete fresh-state login. -/
theorem login_success_device_check_precedes_suspicion_witness :
    (login demoLoginData none none (.ok (some "u1")) 0 emptyAuthState).2.2 =
      [Ev.signIn, Ev.resetFailed "a@b.c",
       Ev.deviceCheck "u1" (generateFingerprint "unknown" "unknown-ip"),
       Ev.suspicious "u1" (generateFingerprint "unknown" "unknown-ip") false] := by
  have h := (login_success_device_check_precedes_suspicion demoLoginData none none
    "u1" 0 emptyAuthState (by decide) (by decide) (by decide)).1
  rw [h]
  decide

/-- Equal strings have equal data, and conversely. -/
theorem string_data_inj {a b : String} (h : a.data = b.data) : a = b := by
  cases a
  cases b
  exact congrArg String.mk h

/-- Splitting at a separator character that occurs in neither left part is
unambiguous. -/
theorem colon_split_inj (a1 : List Char) : ∀ (a2 b1 b2 : List Char),
    ':' ∉ a1 → ':' ∉ a2 → a1 ++ ':' :: b1 = a2 ++ ':' :: b2 → a1 = a2 ∧ b1 = b2 := by
  induction a1 with
  | nil =>
      intro a2 b1 b2 _ h2 h
      cases a2 with
      | nil => simpa using h
      | cons x xs =>
          rw [List.nil_append, List.cons_append] at h
          injection h with hx _
          exact absurd (hx ▸ List.mem_cons_self x xs) h2
  | cons y ys ih =>
      intro a2 b1 b2 h1 h2 h
      cases a2 with
      | nil =>
          rw [List.nil_append, List.cons_append] at h
          injection h with hy _
          exact absurd (hy.symm ▸ List.mem_cons_self y ys) h1
      | cons x xs =>
          rw [List.cons_append, List.cons_append] at h
          injection h with hxy hrest
          have h1' : ':' ∉ ys := fun hm => h1 (List.mem_cons_of_mem y hm)
          have h2' : ':' ∉ xs := fun hm => h2 (List.mem_cons_of_mem x hm)
          obtain ⟨ha, hb⟩ := ih xs b1 b2 h1' h2' hrest
          exact ⟨by rw [hxy, ha], hb⟩

/-- The data of the joined fingerprint input. -/
theorem fingerprint_join_data (ua ip : String) :
    (ua ++ ":" ++ ip).data = ua.data ++ ':' :: ip.data := by
  rw [string_data_append, string_data_append, List.append_assoc]
  rfl

/-- C8 (amended): `generateFingerprint` is pure and deterministic, and the
joined string `userAgent ++ ":" ++ ip` is recoverable from the fingerprint
(the base64-over-UTF-8 encoding is reversible); consequently two pairs whose
`userAgent`s contain no `':'` collide only when they are equal.  (Reversibility
to the *pair* fails in general — see the counterexample — because the joined
string does not determine the split when the userAgent contains `':'`.) -/
theorem generateFingerprint_spec :
    (∀ ua1 ip1 ua2 ip2 : String, ua1 = ua2 → ip1 = ip2 →
      generateFingerprint ua1 ip1 = generateFingerprint ua2 ip2) ∧
    (∀ ua ip : String,
      decodeBase64String (generateFingerprint ua ip) = ua ++ ":" ++ ip) ∧
    (∀ ua1 ip1 ua2 ip2 : String, ':' ∉ ua1.data → ':' ∉ ua2.data →
      generateFingerprint ua1 ip1 = generateFingerprint ua2 ip2 →
      ua1 = ua2 ∧ ip1 = ip2) := by
  refine ⟨?_, ?_, ?_⟩
  · intro ua1 ip1 ua2 ip2 h1 h2
    rw [h1, h2]
  · intro ua ip
    exact decodeBase64String_bufferBase64 (ua ++ ":" ++ ip)
  · intro ua1 ip1 ua2 ip2 h1 h2 h
    have hjoin : ua1 ++ ":" ++ ip1 = ua2 ++ ":" ++ ip2 := bufferBase64_inj h
    have hdata := congrArg String.data hjoin
    rw [fingerprint_join_data, fingerprint_join_data] at hdata
    obtain ⟨ha, hb⟩ := colon_split_inj ua1.data ua2.data ip1.data ip2.data h1 h2 hdata
    exact ⟨string_data_inj ha, string_data_inj hb⟩

/-- Witness for C8 (amended) at concrete colon-free inputs. -/
theorem generateFingerprint_spec_witness :
    decodeBase64String (generateFingerprint "Mozilla/5.0" "203.0.113.9") =
      "Mozilla/5.0:203.0.113.9" ∧
    (':' ∉ ("Mozilla/5.0" : String).data) ∧
    ("Mozilla/5.0" = "Mozilla/5.0" ∧ "203.0.113.9" = "203.0.113.9") := by
  refine ⟨?_, by decide, ?_⟩
  · rw [generateFingerprint_spec.2.1 "Mozilla/5.0" "203.0.113.9"]
    decide
  · exact generateFingerprint_spec.2.2 "Mozilla/5.0" "203.0.113.9" "Mozilla/5.0" "203.0.113.9"
      (by decide) (by decide) rfl

/-- Counterexample to C8 as stated: two distinct `(userAgent, ip)` pairs with
the same joined string produce the same fingerprint, so the pair is not
recoverable and distinct pairs do not always yield distinct fingerprints. -/
theorem generateFingerprint_not_injective :
    generateFingerprint "a:b" "c" = generateFingerprint "a" "b:c" ∧
    ¬("a:b" = "a" ∧ "c" = "b:c") := by
  exact ⟨by decide, by decide⟩

/-- Witness for C9: a concrete track-then-reset sequence does not change the
suspicion verdict even though a suspicious per-user count is present. -/
theorem trackFailedAttempt_invisible_to_suspicion_witness :
    checkSuspiciousActivity "u1" "fp"
      (applyFAOps [FAOp.track "u1", FAOp.reset "u1"]
        (cookieSet (fun _ => none) "failed_attempts_u1" "3")) (fun _ => []) =
    checkSuspiciousActivity "u1" "fp"
      (cookieSet (fun _ => none) "failed_attempts_u1" "3") (fun _ => []) :=
  trackFailedAttempt_invisible_to_suspicion.2.2.1
    [FAOp.track "u1", FAOp.reset "u1"]
    (cookieSet (fun _ => none) "failed_attempts_u1" "3") (fun _ => []) "u1" "fp"

